import Mathlib

/-!
Verification development for the Cardenas financial-document pipeline.

The development shallowly embeds the Python sources:
  * `src/tools/tool_analyze_finances.py` (KPI computation and rule engine),
  * `src/tools/tool_parse_excel.py` (two-stage heuristic normalizer),
  * `src/tools/orchestrator.py` (pipeline runner `process_file`),
  * `src/tools/worker.py` (polling job worker `process_pending_records`).

Modelling conventions:
  * Python floats are modelled as exact rationals (`ℚ`).  Every concrete
    value appearing in the statements below (1000, -400, 60.0, 29.99, …)
    is exactly representable, and the operations exercised on them are
    exact in IEEE double as well, so the abstraction is faithful on the
    inputs the theorems talk about.  `round(x, 2)` is modelled as exact
    round-half-to-even at two decimals.
  * Python strings are `List Char`; `str s` turns a Lean string literal
    into one.
  * `pandas` cells are the inductive `Cell` (missing value, number,
    string, or native datetime).
-/

/-- Coercion from Lean string literals to the `List Char` representation
of Python strings used throughout. -/
def str (s : String) : List Char := s.toList

/-- Python `needle in hay` prefix test helper. -/
def isPrefixSub : List Char → List Char → Bool
  | [], _ => true
  | _ :: _, [] => false
  | a :: as, b :: bs => a = b && isPrefixSub as bs

/-- Python substring containment `needle in hay`. -/
def containsSub (needle : List Char) : List Char → Bool
  | [] => isPrefixSub needle []
  | c :: t => isPrefixSub needle (c :: t) || containsSub needle t

/-- Python `s.lower()`. -/
def lower (s : List Char) : List Char := s.map Char.toLower

/-- Python `s.strip()`: drop whitespace at both ends. -/
def strip (s : List Char) : List Char :=
  ((s.dropWhile Char.isWhitespace).reverse.dropWhile Char.isWhitespace).reverse

/-- Decimal value of a digit string (`int`-style fold). -/
def natOfDigits (s : List Char) : Nat :=
  s.foldl (fun n c => 10 * n + (c.toNat - 48)) 0

/-- Python `s.isdigit()` for ASCII content: non-empty and all digits. -/
def allDigits (s : List Char) : Bool :=
  !s.isEmpty && s.all Char.isDigit

/-! ## Analyzer: `src/tools/tool_analyze_finances.py` -/

/-- Round-half-to-even to an integer, the rounding mode of Python `round`. -/
def roundHalfEven (q : ℚ) : ℤ :=
  if q - ⌊q⌋ < 1/2 then ⌊q⌋
  else if 1/2 < q - ⌊q⌋ then ⌊q⌋ + 1
  else if ⌊q⌋ % 2 = 0 then ⌊q⌋ else ⌊q⌋ + 1

/-- Python `round(q, 2)` (exact decimal round-half-to-even). -/
def round2 (q : ℚ) : ℚ := (roundHalfEven (q * 100) : ℚ) / 100

/-- An item as consumed by `calculate_kpis`: only `category` and `amount`
are read (`item.get('category', '')`, `item.get('amount', 0.0)`). -/
structure AItem where
  category : List Char
  amount : ℚ
deriving DecidableEq

/-- The KPI record returned by `calculate_kpis` (the `ratios` sub-dict is
flattened into the two `_pct` fields). -/
structure KPIs where
  period : List Char
  total_sales : ℚ
  cost_of_sales : ℚ
  fixed_costs : ℚ
  net_income : ℚ
  gross_margin_pct : ℚ
  net_margin_pct : ℚ
deriving DecidableEq

/-- One step of the classification loop of `calculate_kpis`: the
`if/elif` chain over the lower-cased category, accumulating
`(total_sales, cost_of_sales, fixed_costs)`. -/
def kpiStep (acc : ℚ × ℚ × ℚ) (it : AItem) : ℚ × ℚ × ℚ :=
  let cat := lower it.category
  let amt := it.amount
  if containsSub (str "ingreso") cat || containsSub (str "venta") cat then
    (acc.1 + amt, acc.2.1, acc.2.2)
  else if containsSub (str "costo") cat then
    (acc.1, acc.2.1 + |amt|, acc.2.2)
  else if containsSub (str "gasto") cat || containsSub (str "admin") cat then
    (acc.1, acc.2.1, acc.2.2 + |amt|)
  else acc

/-- `calculate_kpis` from `tool_analyze_finances.py`.  The guard on
`gross_margin` is `total_sales > 0`; the guard on `net_margin_pct` is
Python truthiness of `total_sales`, i.e. `total_sales ≠ 0`. -/
def calculate_kpis (financial_period : List Char) (items : List AItem) : KPIs :=
  let agg := items.foldl kpiStep (0, 0, 0)
  let total_sales := agg.1
  let cost_of_sales := agg.2.1
  let fixed_costs := agg.2.2
  let gross_margin : ℚ :=
    if 0 < total_sales then (total_sales - cost_of_sales) / total_sales else 0
  let net_income := total_sales - cost_of_sales - fixed_costs
  { period := financial_period
    total_sales := total_sales
    cost_of_sales := cost_of_sales
    fixed_costs := fixed_costs
    net_income := net_income
    gross_margin_pct := round2 (gross_margin * 100)
    net_margin_pct :=
      round2 (if total_sales ≠ 0 then net_income / total_sales * 100 else 0) }

/-- An insight produced by `generate_optimization_rules`.  The `message`
f-string is represented by the numeric value interpolated into it
(`message_value`); the fixed surrounding text is not modelled. -/
structure Insight where
  rule_id : String
  severity : String
  title : String
  actionable_step : String
  message_value : ℚ
deriving DecidableEq

/-- `generate_optimization_rules` from `tool_analyze_finances.py`:
`HIGH_FIXED_COSTS` is appended when `sales > 0 and fixed/sales > 0.5`,
then `LOW_GROSS_MARGIN` when `gross_margin_pct < 30`. -/
def generate_optimization_rules (kpis : KPIs) : List Insight :=
  let sales := kpis.total_sales
  let fixed := kpis.fixed_costs
  let highRules : List Insight :=
    if 0 < sales ∧ fixed / sales > 1/2 then
      [{ rule_id := "HIGH_FIXED_COSTS", severity := "HIGH",
         title := "Gastos Fijos Elevados",
         actionable_step := "Audita tus suscripciones y re-negocia el arriendo.",
         message_value := fixed }]
    else []
  let margin := kpis.gross_margin_pct
  let lowRules : List Insight :=
    if margin < 30 then
      [{ rule_id := "LOW_GROSS_MARGIN", severity := "MEDIUM",
         title := "Margen Bruto Bajo",
         actionable_step := "Revisa tus costos de venta o precios.",
         message_value := margin }]
    else []
  highRules ++ lowRules

/-- The result of `analyze`: KPIs plus the insight list. -/
structure AnalysisResult where
  kpis : KPIs
  improvements : List Insight
deriving DecidableEq

/-- `analyze` from `tool_analyze_finances.py`. -/
def analyze (financial_period : List Char) (items : List AItem) : AnalysisResult :=
  let kpis := calculate_kpis financial_period items
  { kpis := kpis, improvements := generate_optimization_rules kpis }

/-! ## Theorems about the Analyzer -/

/-- A KPI record with a given `gross_margin_pct` and all other numeric
fields zero, used to exercise the rule-engine boundary. -/
def kpisWithMargin (m : ℚ) : KPIs :=
  { period := str "p", total_sales := 0, cost_of_sales := 0, fixed_costs := 0,
    net_income := 0, gross_margin_pct := m, net_margin_pct := 0 }

/-- Claim C1: on the document with items `venta 1000`, `costo -400`,
`gasto admin -700`, the KPI computation yields `total_sales = 1000`,
`cost_of_sales = 400`, `fixed_costs = 700`, `net_income = -100`,
`gross_margin_pct = 60.0`, and the rule engine on these KPIs fires
`HIGH_FIXED_COSTS` and does not fire `LOW_GROSS_MARGIN` (so the insight
list is exactly `[HIGH_FIXED_COSTS]`). -/
theorem kpi_example_c1 :
    let items : List AItem :=
      [⟨str "venta", 1000⟩, ⟨str "costo", -400⟩, ⟨str "gasto admin", -700⟩]
    let k := calculate_kpis (str "2025") items
    k.total_sales = 1000 ∧ k.cost_of_sales = 400 ∧ k.fixed_costs = 700 ∧
      k.net_income = -100 ∧ k.gross_margin_pct = 60 ∧
      (generate_optimization_rules k).map Insight.rule_id = ["HIGH_FIXED_COSTS"] := by
  have h1 : (containsSub (str "ingreso") (lower (str "venta")) ||
      containsSub (str "venta") (lower (str "venta"))) = true := by decide
  have h2 : (containsSub (str "ingreso") (lower (str "costo")) ||
      containsSub (str "venta") (lower (str "costo"))) = false := by decide
  have h3 : containsSub (str "costo") (lower (str "costo")) = true := by decide
  have h4 : (containsSub (str "ingreso") (lower (str "gasto admin")) ||
      containsSub (str "venta") (lower (str "gasto admin"))) = false := by decide
  have h5 : containsSub (str "costo") (lower (str "gasto admin")) = false := by decide
  have h6 : (containsSub (str "gasto") (lower (str "gasto admin")) ||
      containsSub (str "admin") (lower (str "gasto admin"))) = true := by decide
  simp only [calculate_kpis, kpiStep, List.foldl, h1, h2, h3, h4, h5, h6,
    reduceIte, Bool.false_eq_true, if_false, if_true]
  norm_num [round2, roundHalfEven, generate_optimization_rules]

/-- Claim C8: the `LOW_GROSS_MARGIN` rule fires exactly when
`gross_margin_pct < 30` (strict); in particular it fires at margin
`29.99` and does not fire at margin `30.0`. -/
theorem low_gross_margin_boundary_c8 :
    (∀ k : KPIs,
      "LOW_GROSS_MARGIN" ∈ (generate_optimization_rules k).map Insight.rule_id ↔
        k.gross_margin_pct < 30) ∧
    "LOW_GROSS_MARGIN" ∈
      (generate_optimization_rules (kpisWithMargin 29.99)).map Insight.rule_id ∧
    "LOW_GROSS_MARGIN" ∉
      (generate_optimization_rules (kpisWithMargin 30)).map Insight.rule_id := by
  refine ⟨fun k => ?_, ?_, ?_⟩
  · by_cases hm : k.gross_margin_pct < 30 <;>
      by_cases hs : 0 < k.total_sales ∧ k.fixed_costs / k.total_sales > 1/2 <;>
      simp [generate_optimization_rules, hm, hs] <;>
      rintro x - - rfl <;> simp
  · have h : (29.99 : ℚ) < 30 := by norm_num
    simp [generate_optimization_rules, kpisWithMargin, h]
  · simp [generate_optimization_rules, kpisWithMargin]

/-- Claim C10: analyzing a document with an empty item list yields KPIs
that are all zero (including both margin percentages) and exactly one
insight, `LOW_GROSS_MARGIN` with severity `MEDIUM`. -/
theorem analyze_empty_items_c10 (p : List Char) :
    (analyze p []).kpis.total_sales = 0 ∧ (analyze p []).kpis.cost_of_sales = 0 ∧
      (analyze p []).kpis.fixed_costs = 0 ∧ (analyze p []).kpis.net_income = 0 ∧
      (analyze p []).kpis.gross_margin_pct = 0 ∧
      (analyze p []).kpis.net_margin_pct = 0 ∧
      (analyze p []).improvements.map (fun i => (i.rule_id, i.severity)) =
        [("LOW_GROSS_MARGIN", "MEDIUM")] := by
  simp [analyze, calculate_kpis, generate_optimization_rules, round2, roundHalfEven]

/-! ## Pipeline runner: `src/tools/orchestrator.py`

`run_tool` launches a tool subprocess; it raises when the tool exits
non-zero and otherwise returns the tool's JSON output.  For the claims
below only two aspects of that JSON matter: whether the subprocess
terminated non-zero and whether the returned document carries an
`"error"` key. -/

/-- The outcome of invoking one tool via `run_tool`: either the
subprocess exited non-zero (so `run_tool` raises), or it produced a JSON
document which may or may not carry an `"error"` key. -/
inductive ToolOutcome
  | exitNonzero
  | json (hasErrorKey : Bool)
deriving DecidableEq

/-- Observable effects of one `process_file` run in `orchestrator.py`:
whether the analyzer stage was reached, whether the persistence stage was
reached, and the process exit code seen by the caller. -/
structure OrchRun where
  analysisRan : Bool
  persistAttempted : Bool
  persistFailedCaught : Bool
  exitCode : Nat
deriving DecidableEq

/-- `process_file` from `orchestrator.py`, observed at the process
boundary.  On a parser `"error"` key it prints a diagnostic and
`return`s, so the interpreter exits with status 0.  A tool subprocess
exiting non-zero makes `run_tool` raise; the exception is uncaught in
`main`, so the interpreter exits non-zero.  A persistence failure is
caught (`except ... print`), so it does not change the exit code. -/
def process_file (parser : ToolOutcome) (analyzer : ToolOutcome)
    (persistFails : Bool) : OrchRun :=
  match parser with
  | .exitNonzero =>
    { analysisRan := false, persistAttempted := false,
      persistFailedCaught := false, exitCode := 1 }
  | .json hasErrorKey =>
    if hasErrorKey then
      { analysisRan := false, persistAttempted := false,
        persistFailedCaught := false, exitCode := 0 }
    else
      match analyzer with
      | .exitNonzero =>
        { analysisRan := true, persistAttempted := false,
          persistFailedCaught := false, exitCode := 1 }
      | .json _ =>
        { analysisRan := true, persistAttempted := true,
          persistFailedCaught := persistFails, exitCode := 0 }

/-! ## Job queue worker: `src/tools/worker.py` -/

/-- Job record status values. -/
inductive Status
  | PENDING
  | PROCESSING
  | COMPLETED
  | FAILED
deriving DecidableEq

/-- Environment behaviour while processing one record: whether the
storage download raises, and the orchestrator subprocess's return code
when the download succeeds. -/
structure RecordOutcome where
  downloadFails : Bool
  exitCode : Nat
deriving DecidableEq

/-- Observable per-record worker state: the persisted status field and
whether the record's temporary file currently exists on disk. -/
structure WorkerState where
  status : Status
  tempExists : Bool
deriving DecidableEq

/-- The `try` block body of `process_pending_records` after the temp
file has been created: download the source file, then run the
orchestrator subprocess and raise if its return code is non-zero. -/
def runTryBlock (o : RecordOutcome) : Except (List Char) Unit :=
  if o.downloadFails then .error (str "download error")
  else if o.exitCode ≠ 0 then .error (str "Orchestrator failed")
  else .ok ()

/-- Processing of a single pending record in `process_pending_records`:
mark PROCESSING, create the temp file, run the `try` block (marking
COMPLETED on success), catch any exception (marking FAILED), and in the
`finally` clause remove the temp file if it exists. -/
def processRecord (o : RecordOutcome) (s0 : WorkerState) : WorkerState :=
  let s1 : WorkerState := { s0 with status := .PROCESSING }
  let s2 : WorkerState := { s1 with tempExists := true }
  let s3 : WorkerState :=
    match runTryBlock o with
    | .ok _ => { s2 with status := .COMPLETED }
    | .error _ => { s2 with status := .FAILED }
  { s3 with tempExists := false }

/-- A record selected by the PENDING query, before any processing. -/
def initialRecordState : WorkerState := { status := .PENDING, tempExists := false }

/-- One poll cycle of `process_pending_records` over the list of records
returned by the PENDING query: each record is processed in order by the
`for` loop, whose per-iteration `try/except` confines a failure to its
own iteration. -/
def processCycle (outcomes : List RecordOutcome) : List WorkerState :=
  outcomes.map (fun o => processRecord o initialRecordState)

/-- A record's processing raises somewhere: either the download fails or
the orchestrator subprocess exits non-zero. -/
def recordFails (o : RecordOutcome) : Bool :=
  o.downloadFails || o.exitCode ≠ 0

/-! ## Theorems about the Pipeline Runner and the Worker -/

/-- Claim C2, counterexample: when the parser tool returns a document
carrying an `"error"` key, `process_file` prints a diagnostic and
returns normally, so the orchestrator process exits with status 0 — not
the non-zero status the claim asserts — and the worker, seeing return
code 0, marks the record COMPLETED rather than FAILED. -/
theorem parse_error_exit_cex_c2 :
    (process_file (ToolOutcome.json true) (ToolOutcome.json false) false).exitCode = 0 ∧
    (processRecord
      { downloadFails := false,
        exitCode :=
          (process_file (ToolOutcome.json true) (ToolOutcome.json false) false).exitCode }
      initialRecordState).status = Status.COMPLETED := by
  constructor
  · rfl
  · rfl

/-- Claim C2 as amended: when the dispatched parser signals an error key
in its output, the pipeline runner does abort before analysis and
persistence, but it terminates with exit status zero; the worker marks a
record FAILED exactly when the runner process exits non-zero (download
having succeeded), and therefore marks a record whose parse failed
COMPLETED rather than FAILED. -/
theorem parse_error_exit_amended_c2 (analyzer : ToolOutcome) (persistFails : Bool)
    (s0 : WorkerState) (h : s0.status = Status.PENDING) :
    let r := process_file (ToolOutcome.json true) analyzer persistFails
    r.analysisRan = false ∧ r.persistAttempted = false ∧ r.exitCode = 0 ∧
      (∀ c : Nat,
        (processRecord { downloadFails := false, exitCode := c } s0).status =
            Status.FAILED ↔ c ≠ 0) ∧
      (processRecord { downloadFails := false, exitCode := r.exitCode } s0).status =
        Status.COMPLETED := by
  refine ⟨rfl, rfl, rfl, fun c => ?_, by rfl⟩
  by_cases hc : c = 0 <;>
    simp [processRecord, runTryBlock, hc]

/-- Witness for `parse_error_exit_amended_c2` at a concrete record
state. -/
theorem parse_error_exit_amended_c2_witness :
    (let r := process_file (ToolOutcome.json true) (ToolOutcome.json false) false
    r.analysisRan = false ∧ r.persistAttempted = false ∧ r.exitCode = 0 ∧
      (∀ c : Nat,
        (processRecord { downloadFails := false, exitCode := c }
              initialRecordState).status = Status.FAILED ↔ c ≠ 0) ∧
      (processRecord { downloadFails := false, exitCode := r.exitCode }
          initialRecordState).status = Status.COMPLETED) :=
  parse_error_exit_amended_c2 (ToolOutcome.json false) false initialRecordState rfl

/-- Claim C6: a record that starts PENDING and whose source-file
download raises ends FAILED, with its temporary file no longer on disk;
moreover the temp file is removed on every exit path of the per-record
processing, success or failure. -/
theorem download_failure_c6 (o : RecordOutcome) (s0 : WorkerState)
    (hp : s0.status = Status.PENDING) (hd : o.downloadFails = true) :
    (processRecord o s0).status = Status.FAILED ∧
      (processRecord o s0).tempExists = false ∧
      ∀ (o2 : RecordOutcome) (s2 : WorkerState),
        (processRecord o2 s2).tempExists = false := by
  refine ⟨?_, rfl, fun o2 s2 => rfl⟩
  simp [processRecord, runTryBlock, hd]

/-- Witness for `download_failure_c6`: a concrete PENDING record whose
download fails. -/
theorem download_failure_c6_witness :
    (processRecord { downloadFails := true, exitCode := 0 }
        initialRecordState).status = Status.FAILED ∧
      (processRecord { downloadFails := true, exitCode := 0 }
          initialRecordState).tempExists = false ∧
      ∀ (o2 : RecordOutcome) (s2 : WorkerState),
        (processRecord o2 s2).tempExists = false :=
  download_failure_c6 { downloadFails := true, exitCode := 0 }
    initialRecordState rfl rfl

/-- Claim C7: within one poll cycle, every pending record in the list is
processed (the result list has one entry per record, each obtained by
processing that record alone from its fresh initial state), and a record
is marked FAILED exactly when its own download or orchestrator
invocation fails — a failure in one record does not prevent or alter the
processing of any other record in the same cycle. -/
theorem cycle_isolation_c7 (outcomes : List RecordOutcome) (o : RecordOutcome)
    (i : Nat) (h : outcomes[i]? = some o) :
    (processCycle outcomes).length = outcomes.length ∧
      (processCycle outcomes)[i]? = some (processRecord o initialRecordState) ∧
      ((processRecord o initialRecordState).status = Status.FAILED ↔
        recordFails o = true) := by
  refine ⟨by simp [processCycle], ?_, ?_⟩
  · simp [processCycle, h]
  · rcases o with ⟨df, c⟩
    cases df <;> by_cases hc : c = 0 <;>
      simp [processRecord, runTryBlock, recordFails, hc]

/-- Witness for `cycle_isolation_c7`: in a two-record cycle whose first
record fails at download, the second record is still processed and ends
COMPLETED. -/
theorem cycle_isolation_c7_witness :
    let outcomes : List RecordOutcome :=
      [{ downloadFails := true, exitCode := 0 },
       { downloadFails := false, exitCode := 0 }]
    (processCycle outcomes).length = outcomes.length ∧
      (processCycle outcomes)[1]? =
        some (processRecord { downloadFails := false, exitCode := 0 }
          initialRecordState) ∧
      ((processRecord { downloadFails := false, exitCode := 0 }
          initialRecordState).status = Status.FAILED ↔
        recordFails { downloadFails := false, exitCode := 0 } = true) :=
  cycle_isolation_c7 _ { downloadFails := false, exitCode := 0 } 1 rfl

/-! ## Normalizer: `src/tools/tool_parse_excel.py`

The two-stage heuristic normalizer.  A `DataFrame` is header names plus
a matrix of cells; `datetime.now()` is made explicit as a `today`
parameter (both stages use only its year, and the flat stage its
formatted date, as placeholder fallbacks). -/

/-- A calendar date as carried by a parsed `datetime`. -/
structure PDate where
  year : Nat
  month : Nat
  day : Nat
deriving DecidableEq

/-- A `pandas` cell: missing value (NaN), a number, a string, or a
native datetime value. -/
inductive Cell
  | na
  | num (q : ℚ)
  | str (s : List Char)
  | date (d : PDate)
deriving DecidableEq

/-- A `pandas.DataFrame`: column header names and data rows. -/
structure DataFrame where
  cols : List (List Char)
  rows : List (List Cell)
deriving DecidableEq

/-- Split a string at every occurrence of `sep` (the separator structure
used by the fixed `strptime` format literals). -/
def splitOnChar (sep : Char) : List Char → List (List Char)
  | [] => [[]]
  | c :: t =>
    let r := splitOnChar sep t
    if c = sep then [] :: r
    else
      match r with
      | [] => [[c]]
      | h :: t2 => (c :: h) :: t2

/-- The C-locale month abbreviations matched by `strptime`'s `%b`. -/
def monthAbbrs : List (List Char) :=
  [str "jan", str "feb", str "mar", str "apr", str "may", str "jun",
   str "jul", str "aug", str "sep", str "oct", str "nov", str "dec"]

/-- `%b`: case-insensitive match against the month abbreviations. -/
def monthOfAbbr (s : List Char) : Option Nat :=
  match monthAbbrs.findIdx? (fun m => decide (m = lower s)) with
  | some i => some (i + 1)
  | none => none

/-- Gregorian leap-year test (as in `datetime`'s validation). -/
def isLeap (y : Nat) : Bool :=
  (y % 4 = 0 && !(y % 100 = 0)) || y % 400 = 0

/-- Number of days in a month, for `strptime`'s day-range validation. -/
def daysInMonth (y m : Nat) : Nat :=
  if m = 2 then (if isLeap y then 29 else 28)
  else if m = 4 || m = 6 || m = 9 || m = 11 then 30
  else 31

/-- `strptime` field validation: year within `datetime`'s range, month
1–12, day within the month. -/
def mkValidDate (y m d : Nat) : Option PDate :=
  if 1 ≤ y ∧ y ≤ 9999 ∧ 1 ≤ m ∧ m ≤ 12 ∧ 1 ≤ d ∧ d ≤ daysInMonth y m then
    some ⟨y, m, d⟩
  else none

/-- `%d` / `%m`: one or two digits. -/
def fieldDigits2 (s : List Char) : Option Nat :=
  if allDigits s && decide (s.length ≤ 2) then some (natOfDigits s) else none

/-- `%Y`: one to four digits. -/
def fieldDigits4 (s : List Char) : Option Nat :=
  if allDigits s && decide (s.length ≤ 4) then some (natOfDigits s) else none

/-- `datetime.strptime(s, '%d/%b/%Y')`. -/
def strptime_dbY (s : List Char) : Option PDate :=
  match splitOnChar '/' s with
  | [a, b, c] => do
    let d ← fieldDigits2 a
    let m ← monthOfAbbr b
    let y ← fieldDigits4 c
    mkValidDate y m d
  | _ => none

/-- `datetime.strptime(s, '%d/%m/%Y')`. -/
def strptime_dmY (s : List Char) : Option PDate :=
  match splitOnChar '/' s with
  | [a, b, c] => do
    let d ← fieldDigits2 a
    let m ← fieldDigits2 b
    let y ← fieldDigits4 c
    mkValidDate y m d
  | _ => none

/-- `datetime.strptime(s, '%b/%Y')` (day defaults to 1). -/
def strptime_bY (s : List Char) : Option PDate :=
  match splitOnChar '/' s with
  | [a, b] => do
    let m ← monthOfAbbr a
    let y ← fieldDigits4 b
    mkValidDate y m 1
  | _ => none

/-- `datetime.strptime(s, '%Y-%m-%d')`. -/
def strptime_Ymd (s : List Char) : Option PDate :=
  match splitOnChar '-' s with
  | [a, b, c] => do
    let y ← fieldDigits4 a
    let m ← fieldDigits2 b
    let d ← fieldDigits2 c
    mkValidDate y m d
  | _ => none

/-- The format-trying loop of `parse_financial_matrix`: the four formats
in priority order, first success wins. -/
def strptimeAny (s : List Char) : Option PDate :=
  (strptime_dbY s) <|> (strptime_dmY s) <|> (strptime_bY s) <|> (strptime_Ymd s)

/-- Left-pad a decimal numeral with zeros to width `w`. -/
def padZeros (w : Nat) (n : Nat) : List Char :=
  let ds := Nat.toDigits 10 n
  List.replicate (w - ds.length) '0' ++ ds

/-- `parsed_date.strftime('%Y-%m-%d')`. -/
def fmtDate (d : PDate) : List Char :=
  padZeros 4 d.year ++ str "-" ++ padZeros 2 d.month ++ str "-" ++ padZeros 2 d.day

/-- Date detection applied to one cell during the header scan: a native
datetime cell (`isinstance(val, datetime)`) is accepted directly; any
other cell is rendered with `str`, stripped, and tried against the four
formats.  `str()` of a float or of NaN can never match (each format
requires `/` separators or exactly two `-` separators around digit or
month-name fields), so only string and datetime cells can be recorded. -/
def cellDate : Cell → Option PDate
  | .date d => some d
  | .str s => strptimeAny (strip s)
  | .num _ => none
  | .na => none

/-- Insert or overwrite a key in the date map, keeping the original
insertion position (Python dict assignment semantics). -/
def upsertDate (k : Nat) (v : List Char) :
    List (Nat × List Char) → List (Nat × List Char)
  | [] => [(k, v)]
  | (k2, v2) :: t => if k2 = k then (k, v) :: t else (k2, v2) :: upsertDate k v t

/-- Scan one row left to right, recording each column index whose cell
parses as a date (`date_map[c_idx] = parsed_date.strftime(...)`). -/
def scanRowDates (row : List Cell) (acc : List (Nat × List Char)) :
    List (Nat × List Char) :=
  row.enum.foldl (fun m p =>
    match cellDate p.2 with
    | some d => upsertDate p.1 (fmtDate d) m
    | none => m) acc

/-- The header scan of `parse_financial_matrix`: the first 10 rows
(`df.head(10)`), in order. -/
def buildDateMap (rows : List (List Cell)) : List (Nat × List Char) :=
  (rows.take 10).foldl (fun acc r => scanRowDates r acc) []

/-- Python `val.replace('.', '').replace(',', '.')`: drop every dot,
then turn every comma into a dot. -/
def cleanupNum (s : List Char) : List Char :=
  (s.filter (fun c => c != '.')).map (fun c => if c = ',' then '.' else c)

/-- Python `s.replace('.', '', 1)`: drop the first dot only. -/
def removeFirstDot : List Char → List Char
  | [] => []
  | c :: t => if c = '.' then t else c :: removeFirstDot t

/-- Value of a decimal digit string with at most one dot: integer part
plus fractional part (`float()` on a string that passed the digit
check). -/
def decimalOfDigits (s : List Char) : ℚ :=
  let ip := s.takeWhile (fun c => c != '.')
  let fp := (s.dropWhile (fun c => c != '.')).drop 1
  if fp.isEmpty then (natOfDigits ip : ℚ)
  else (natOfDigits ip : ℚ) + (natOfDigits fp : ℚ) / ((10 : ℚ) ^ fp.length)

/-- Amount acceptance for one cell of a period column in
`parse_financial_matrix`: NaN is skipped (`pd.isna`); a string cell is
cleaned and must then be digits with at most one dot
(`val.replace('.', '', 1).isdigit()`) before `float()` is applied; a
datetime cell makes `float()` raise, which the enclosing `except`
swallows; finally a zero amount is skipped (`if amount == 0`). -/
def matrixCellAmount : Cell → Option ℚ
  | .na => none
  | .num q => if q = 0 then none else some q
  | .date _ => none
  | .str s =>
    let v := cleanupNum s
    if allDigits (removeFirstDot v) then
      let amount := decimalOfDigits v
      if amount = 0 then none else some amount
    else none

/-- The look-left label search: scanning `col_idx - 1` down to `0`, the
first string cell whose stripped text is longer than 3 characters
becomes the description (stripped); otherwise "Unknown". -/
def findDescription (row : List Cell) (colIdx : Nat) : List Char :=
  match (row.take colIdx).reverse.find? (fun c =>
      match c with
      | .str s => decide ((strip s).length > 3)
      | _ => false) with
  | some (.str s) => strip s
  | _ => str "Unknown"

/-- A parsed line item.  `amount = none` models a stored float NaN
(which the flat stage can produce for a missing amount cell, since
`float(nan)` succeeds); both parse stages produce `some` for every
number they actually parse. -/
structure PItem where
  date : List Char
  description : List Char
  category : List Char
  amount : Option ℚ
deriving DecidableEq

/-- For one data row, one line item per period column whose cell is
accepted as a non-zero amount, iterating the date map in insertion
order.  An out-of-range column index (`row.iloc[col_idx]`) raises and is
skipped by the enclosing `except`. -/
def matrixRowItems (dateMap : List (Nat × List Char)) (row : List Cell) :
    List PItem :=
  dateMap.filterMap (fun p =>
    match row[p.1]? with
    | none => none
    | some cell =>
      match matrixCellAmount cell with
      | none => none
      | some amount =>
        some { date := p.2, description := findDescription row p.1,
               category := str "Financial Statement", amount := some amount })

/-- The canonical document produced by both parse stages. -/
structure PDoc where
  financial_period : Nat
  currency : List Char
  items : List PItem
deriving DecidableEq

/-- `parse_financial_matrix` from `tool_parse_excel.py`: build the date
map from the first 10 rows; return `None` when it is empty; otherwise
extract items from every row after row 0 (`start_row = 1`). -/
def parse_financial_matrix (today : PDate) (df : DataFrame) : Option PDoc :=
  let dateMap := buildDateMap df.rows
  if dateMap.isEmpty then none
  else
    some { financial_period := today.year, currency := str "CLP",
           items := (df.rows.drop 1).foldl
             (fun acc r => acc ++ matrixRowItems dateMap r) [] }

/-- The four semantic roles of the flat-stage column mapping. -/
inductive Role
  | date
  | category
  | description
  | amount
deriving DecidableEq

/-- The `if/elif` keyword chain classifying one (lower-cased, stripped)
column header: date before category before description before amount; a
header matching an earlier role is claimed by it and never considered
for a later one. -/
def roleOf (col : List Char) : Option Role :=
  if containsSub (str "fecha") col || containsSub (str "date") col then
    some .date
  else if containsSub (str "cat") col || containsSub (str "rubro") col then
    some .category
  else if containsSub (str "desc") col || containsSub (str "detalle") col ||
      containsSub (str "item") col then
    some .description
  else if containsSub (str "monto") col || containsSub (str "valor") col ||
      containsSub (str "amount") col || containsSub (str "neto") col then
    some .amount
  else none

/-- The `column_map` dict: for each role, the mapped column name. -/
structure ColumnMap where
  date : Option (List Char)
  category : Option (List Char)
  description : Option (List Char)
  amount : Option (List Char)
deriving DecidableEq

/-- The empty `column_map`. -/
def emptyColumnMap : ColumnMap := ⟨none, none, none, none⟩

/-- One iteration of the column-mapping loop: plain dict assignment
(`column_map[role] = col`), overwriting any earlier assignment. -/
def assignRole (m : ColumnMap) (col : List Char) : ColumnMap :=
  match roleOf col with
  | some .date => { m with date := some col }
  | some .category => { m with category := some col }
  | some .description => { m with description := some col }
  | some .amount => { m with amount := some col }
  | none => m

/-- The column-mapping loop of `normalize_dataframe` over the cleaned
headers. -/
def buildColumnMap (cols : List (List Char)) : ColumnMap :=
  cols.foldl assignRole emptyColumnMap

/-- `row[name]` for a mapped column name: the cell at the first column
bearing that name.  (The model assumes header names are distinct;
`pandas` label lookup on a duplicated name yields a sub-frame instead of
a scalar.) -/
def colValue (cols : List (List Char)) (row : List Cell) (name : List Char) :
    Cell :=
  match cols.findIdx? (fun c => decide (c = name)) with
  | some i => row.getD i Cell.na
  | none => Cell.na

/-- `pd.to_datetime` on the date-column cell, modelled on the cell kinds
the claims exercise: native datetimes pass through and date-formatted
strings are parsed; other cells are treated as unparseable, sending the
row to the `datetime.now()` fallback.  (`pandas` accepts further string
formats and epoch numbers; no statement below depends on that breadth.)
-/
def pdToDatetime : Cell → Option PDate
  | .date d => some d
  | .str s => strptimeAny (strip s)
  | _ => none

/-- Python `str()` of a cell, used for the flat-stage description and
category fields.  The numeric case renders an integral value with the
trailing `.0` of `str(float)`; a non-integral value is rendered as
`num/den`, standing in for Python's shortest-roundtrip float notation,
which no statement below inspects. -/
def pyStr : Cell → List Char
  | .na => str "nan"
  | .str s => s
  | .date d => fmtDate d
  | .num q =>
    if q.den = 1 then
      (if q.num < 0 then str "-" else []) ++ Nat.toDigits 10 q.num.natAbs ++ str ".0"
    else
      (if q.num < 0 then str "-" else []) ++ Nat.toDigits 10 q.num.natAbs ++
        str "/" ++ Nat.toDigits 10 q.den

/-- `float()` on an already-cleaned amount string: optional sign, then
digits with at most one dot and at least one digit.  (Scientific
notation and the `inf`/`nan` words are outside the modelled cell
vocabulary.) -/
def pyFloat (s0 : List Char) : Option ℚ :=
  let s := strip s0
  let signed : ℚ × List Char :=
    match s with
    | '-' :: r => (-1, r)
    | '+' :: r => (1, r)
    | _ => (1, s)
  if (removeFirstDot signed.2).all Char.isDigit && signed.2.any Char.isDigit then
    some (signed.1 * decimalOfDigits signed.2)
  else none

/-- The flat-stage per-row amount: a number converts directly; NaN flows
through `float()` as NaN (modelled `none`); a datetime makes `float()`
raise, and the `except` stores `0.0`; a string is cleaned and parsed,
with any parse failure also caught and stored as `0.0`. -/
def flatAmount : Cell → Option ℚ
  | .na => none
  | .num q => some q
  | .date _ => some 0
  | .str s => some ((pyFloat (cleanupNum s)).getD 0)

/-- The flat-stage per-row date: the mapped date column parsed by
`pd.to_datetime` and formatted, falling back to today's date on a parse
failure or when no date column is mapped. -/
def flatDate (today : PDate) (cm : ColumnMap) (cols : List (List Char))
    (row : List Cell) : List Char :=
  match cm.date with
  | some cname =>
    match pdToDatetime (colValue cols row cname) with
    | some d => fmtDate d
    | none => fmtDate today
  | none => fmtDate today

/-- One row of the flat-stage item loop of `normalize_dataframe`. -/
def flatItem (today : PDate) (cm : ColumnMap) (cols : List (List Char))
    (row : List Cell) : PItem :=
  { date := flatDate today cm cols row,
    description :=
      match cm.description with
      | some c => pyStr (colValue cols row c)
      | none => str "Unknown",
    category :=
      match cm.category with
      | some c => pyStr (colValue cols row c)
      | none => str "General",
    amount :=
      match cm.amount with
      | some c => flatAmount (colValue cols row c)
      | none => none }

/-- Result of `normalize_dataframe`: a document, or the `{"error": ...}`
dictionary. -/
inductive NormResult
  | ok (doc : PDoc)
  | err (msg : List Char)
deriving DecidableEq

/-- The flat-list stage (stage 2) of `normalize_dataframe`: clean the
headers, build the column map, fail iff no amount column is mapped, and
otherwise build one item per data row. -/
def flat_parse (today : PDate) (df : DataFrame) : NormResult :=
  let cols := df.cols.map (fun c => strip (lower c))
  let cm := buildColumnMap cols
  match cm.amount with
  | none => .err (str "Could not identify Amount column")
  | some _ =>
    .ok { financial_period := today.year, currency := str "CLP",
          items := df.rows.map (fun r => flatItem today cm cols r) }

/-- `normalize_dataframe` from `tool_parse_excel.py`: the matrix stage
is tried first and its result returned whenever it is non-`None` with a
non-empty item list; otherwise the flat stage runs. -/
def normalize_dataframe (today : PDate) (df : DataFrame) : NormResult :=
  match parse_financial_matrix today df with
  | some m => if m.items.isEmpty then flat_parse today df else .ok m
  | none => flat_parse today df

/-- Whether the matrix stage yielded no item (either `None` or an empty
item list), i.e. whether `normalize_dataframe` falls through to the flat
stage. -/
def matrixItemsEmpty (today : PDate) (df : DataFrame) : Bool :=
  match parse_financial_matrix today df with
  | some m => m.items.isEmpty
  | none => true

/-- Whether a normalization result is the error dictionary. -/
def isErr : NormResult → Bool
  | .err _ => true
  | .ok _ => false

/-- Whether one (cleaned) header contains one of the amount keywords
`monto` / `valor` / `amount` / `neto`. -/
def hasAmountKeyword (col : List Char) : Bool :=
  containsSub (str "monto") col || containsSub (str "valor") col ||
    containsSub (str "amount") col || containsSub (str "neto") col

/-! ## Theorems about the Normalizer -/

/-- A fixed "today" for the concrete instances below. -/
def today0 : PDate := ⟨2025, 1, 1⟩

/-- A table whose only header contains both a date keyword and an amount
keyword, and whose single data row is numeric. -/
def dfFechaMonto : DataFrame := ⟨[str "fecha monto"], [[Cell.num 5]]⟩

/-- A table with two amount-keyword headers and one data row. -/
def dfTwoMonto : DataFrame :=
  ⟨[str "monto1", str "monto2"], [[Cell.num 5, Cell.num 7]]⟩

/-- A table whose first row holds a date-formatted string and whose
second row holds a number, so the matrix stage yields one item. -/
def dfMatrix : DataFrame :=
  ⟨[str "a"], [[Cell.str (str "2025-01-31")], [Cell.num 5]]⟩

/-- The document the matrix stage produces for `dfMatrix`. -/
def matrixDoc : PDoc :=
  ⟨2025, str "CLP",
   [⟨str "2025-01-31", str "Unknown", str "Financial Statement", some 5⟩]⟩

/-- Projection of the `column_map` dict at a role key. -/
def roleSlot (m : ColumnMap) : Role → Option (List Char)
  | .date => m.date
  | .category => m.category
  | .description => m.description
  | .amount => m.amount

/-- The column-mapping fold resolves each role to the last matching
column, falling back to whatever the accumulator already held. -/
theorem roleSlot_foldl (cols : List (List Char)) (m : ColumnMap) (r : Role) :
    roleSlot (cols.foldl assignRole m) r =
      Option.or (cols.reverse.find? (fun c => decide (roleOf c = some r)))
        (roleSlot m r) := by
  induction cols generalizing m with
  | nil => simp
  | cons c t ih =>
    simp only [List.foldl_cons, List.reverse_cons, List.find?_append, ih]
    rw [Option.or_assoc]
    congr 1
    rcases hr : roleOf c with _ | r2
    · cases r <;> simp [assignRole, hr, roleSlot, List.find?]
    · cases r2 <;> cases r <;> simp [assignRole, hr, roleSlot, List.find?]

/-- When the matrix stage yields no item, `normalize_dataframe` is the
flat stage. -/
theorem matrixEmpty_normalize (today : PDate) (df : DataFrame)
    (h : matrixItemsEmpty today df = true) :
    normalize_dataframe today df = flat_parse today df := by
  unfold matrixItemsEmpty at h
  rcases hpm : parse_financial_matrix today df with _ | m
  · simp [normalize_dataframe, hpm]
  · simp only [hpm] at h
    simp [normalize_dataframe, hpm, h]

/-- When the matrix stage yields at least one item,
`normalize_dataframe` returns the matrix document unchanged. -/
theorem matrixNonempty_normalize (today : PDate) (df : DataFrame)
    (h : matrixItemsEmpty today df = false) :
    ∃ m, parse_financial_matrix today df = some m ∧ m.items.isEmpty = false ∧
      normalize_dataframe today df = NormResult.ok m := by
  unfold matrixItemsEmpty at h
  rcases hpm : parse_financial_matrix today df with _ | m
  · simp only [hpm] at h
    exact absurd h (by simp)
  · simp only [hpm] at h
    exact ⟨m, rfl, h, by simp [normalize_dataframe, hpm, h]⟩

/-- The flat stage errs exactly when no column is mapped to the amount
role. -/
theorem flat_parse_err_iff (today : PDate) (df : DataFrame) :
    isErr (flat_parse today df) = true ↔
      (buildColumnMap (df.cols.map (fun c => strip (lower c)))).amount = none := by
  rcases hcm : (buildColumnMap (df.cols.map (fun c => strip (lower c)))).amount
      with _ | c <;>
    simp [flat_parse, hcm, isErr]

/-- The only error message the flat stage can produce. -/
theorem flat_parse_err_msg (today : PDate) (df : DataFrame) (msg : List Char)
    (h : flat_parse today df = NormResult.err msg) :
    msg = str "Could not identify Amount column" := by
  rcases hcm : (buildColumnMap (df.cols.map (fun c => strip (lower c)))).amount
      with _ | c <;>
    simp [flat_parse, hcm] at h
  exact h.symm

/-- Claim C3, counterexample: the claim's "no column header contains an
amount keyword" error condition is wrong.  For the table whose only
header is "fecha monto", the header does contain the amount keyword
`monto`, yet normalization still returns the amount-column error,
because the `elif` chain claims the column for the date role first. -/
theorem amount_error_iff_cex_c3 :
    ¬ ((isErr (normalize_dataframe today0 dfFechaMonto) = true) ↔
      (matrixItemsEmpty today0 dfFechaMonto = true ∧
        (dfFechaMonto.cols.map (fun c => strip (lower c))).any hasAmountKeyword
          = false)) := by
  decide

/-- Claim C3 as amended: `normalize_dataframe` returns an error iff the
matrix stage yields zero items and no column is mapped to the amount
role by the `if/elif` keyword chain (columns matching an earlier role
are claimed by it); the only error produced is the
amount-column-not-found error; when the flat stage runs with an amount
column mapped it emits one item per row (it never aborts); and a
flat-stage string amount whose parse fails yields amount `0.0`. -/
theorem amount_error_iff_amended_c3 (today : PDate) (df : DataFrame) :
    (isErr (normalize_dataframe today df) = true ↔
      (matrixItemsEmpty today df = true ∧
        (buildColumnMap (df.cols.map (fun c => strip (lower c)))).amount
          = none)) ∧
    (∀ msg, normalize_dataframe today df = NormResult.err msg →
      msg = str "Could not identify Amount column") ∧
    (∀ doc, matrixItemsEmpty today df = true →
      normalize_dataframe today df = NormResult.ok doc →
      doc.items.length = df.rows.length) ∧
    (∀ s, pyFloat (cleanupNum s) = none → flatAmount (Cell.str s) = some 0) := by
  refine ⟨?_, ?_, ?_, ?_⟩
  · by_cases hme : matrixItemsEmpty today df = true
    · rw [matrixEmpty_normalize today df hme, flat_parse_err_iff]
      simp [hme]
    · obtain ⟨m, hpm, hne, hn⟩ :=
        matrixNonempty_normalize today df (by simpa using hme)
      rw [hn]
      simp [isErr, hme]
  · intro msg hmsg
    by_cases hme : matrixItemsEmpty today df = true
    · rw [matrixEmpty_normalize today df hme] at hmsg
      exact flat_parse_err_msg today df msg hmsg
    · obtain ⟨m, hpm, hne, hn⟩ :=
        matrixNonempty_normalize today df (by simpa using hme)
      rw [hn] at hmsg
      exact absurd hmsg (by simp)
  · intro doc hme hok
    rw [matrixEmpty_normalize today df hme] at hok
    rcases hcm : (buildColumnMap (df.cols.map (fun c => strip (lower c)))).amount
        with _ | c <;>
      simp [flat_parse, hcm] at hok
    rw [← hok]
    simp
  · intro s hs
    simp [flatAmount, hs]

/-- Witness for `amount_error_iff_amended_c3`: the unparseable string
amount "abc" is stored as `0.0` rather than aborting the row. -/
theorem amount_error_iff_amended_c3_witness :
    flatAmount (Cell.str (str "abc")) = some 0 :=
  (amount_error_iff_amended_c3 today0 dfFechaMonto).2.2.2 (str "abc") (by decide)

/-- Claim C4, counterexample: the claim's "first matching column wins"
is wrong.  With headers "monto1" and "monto2", the amount role is mapped
to "monto2" — the last matching column — while a first-match scan would
pick "monto1"; end to end the produced item takes its amount `7` from
the second column, not `5` from the first. -/
theorem first_match_cex_c4 :
    (buildColumnMap (dfTwoMonto.cols.map (fun c => strip (lower c)))).amount =
        some (str "monto2") ∧
      (dfTwoMonto.cols.map (fun c => strip (lower c))).find?
          (fun c => decide (roleOf c = some Role.amount)) = some (str "monto1") ∧
      ¬ (str "monto2" = str "monto1") ∧
      (match normalize_dataframe today0 dfTwoMonto with
       | NormResult.ok d => d.items.map PItem.amount
       | NormResult.err _ => []) = [some (7 : ℚ)] := by
  refine ⟨by decide, by decide, by decide, by decide⟩

/-- Claim C4 as amended: in the flat stage, columns are mapped to roles
by substring match against the fixed keyword set per role, each column
being claimed by the first role of the `if/elif` order that matches it;
for each role, the mapped column is the LAST column (in header order)
classified to that role — a later matching column overwrites an earlier
one. -/
theorem last_match_amended_c4 (cols : List (List Char)) (r : Role) :
    roleSlot (buildColumnMap cols) r =
      cols.reverse.find? (fun c => decide (roleOf c = some r)) := by
  have h := roleSlot_foldl cols emptyColumnMap r
  have he : roleSlot emptyColumnMap r = none := by cases r <;> rfl
  rw [he] at h
  simpa [buildColumnMap] using h

/-- Claim C5: whenever the matrix stage yields a document with at least
one item, `normalize_dataframe` returns exactly that document (the flat
stage is never consulted); when it yields `None` or an empty item list,
its result is discarded and the flat stage's result is returned. -/
theorem matrix_preference_c5 (today : PDate) (df : DataFrame) :
    (∀ m, parse_financial_matrix today df = some m → m.items ≠ [] →
      normalize_dataframe today df = NormResult.ok m) ∧
    (∀ m, parse_financial_matrix today df = some m → m.items = [] →
      normalize_dataframe today df = flat_parse today df) ∧
    (parse_financial_matrix today df = none →
      normalize_dataframe today df = flat_parse today df) := by
  refine ⟨fun m hm hne => ?_, fun m hm he => ?_, fun hn => ?_⟩
  · rcases hi : m.items with _ | ⟨a, l⟩
    · exact absurd hi hne
    · simp [normalize_dataframe, hm, hi]
  · simp [normalize_dataframe, hm, he]
  · simp [normalize_dataframe, hn]

/-- Witness for `matrix_preference_c5`: a table where the matrix stage
yields one item, and normalization returns the matrix document. -/
theorem matrix_preference_c5_witness :
    parse_financial_matrix today0 dfMatrix = some matrixDoc ∧
      matrixDoc.items ≠ [] ∧
      normalize_dataframe today0 dfMatrix = NormResult.ok matrixDoc :=
  ⟨by decide, by decide,
    (matrix_preference_c5 today0 dfMatrix).1 matrixDoc (by decide) (by decide)⟩

/-- The decimal value of a digit string is never negative. -/
theorem decimalOfDigits_nonneg (s : List Char) : 0 ≤ decimalOfDigits s := by
  simp only [decimalOfDigits]
  split <;> positivity

/-- Claim C9: every amount the matrix stage accepts from a string cell
is strictly positive — after separator cleanup the cell must be digits
with at most one dot (so no minus sign survives the check), and zero
amounts are skipped. -/
theorem matrix_string_amount_pos_c9 (s : List Char) (q : ℚ)
    (h : matrixCellAmount (Cell.str s) = some q) : 0 < q := by
  simp only [matrixCellAmount] at h
  by_cases h1 : allDigits (removeFirstDot (cleanupNum s)) = true
  · simp only [h1, if_true] at h
    by_cases h2 : decimalOfDigits (cleanupNum s) = 0
    · simp [h2] at h
    · simp only [h2, if_false] at h
      rw [Option.some_inj] at h
      rw [← h]
      exact (decimalOfDigits_nonneg _).lt_of_ne (Ne.symm h2)
  · simp [h1] at h

/-- Witness for `matrix_string_amount_pos_c9`: the string cell "15" is
accepted with the positive amount 15. -/
theorem matrix_string_amount_pos_c9_witness : (0 : ℚ) < 15 :=
  matrix_string_amount_pos_c9 (str "15") 15 (by decide)
